import Mathlib

/-!
Verification development for the taskmaster conversation session engine.

The definitions below shallowly embed the TypeScript source:
* `src/lib/venice.ts` — the provider gateway (chat completion, image
  generation and editing, image description, speech synthesis);
* the chat route handler (`POST /api/venice/chat`) and the image route
  handler (`POST /api/venice/image`);
* the multi-thread `ChatExperience` client component (thread store, mode
  toggles, history window, send orchestration, persistence hydration).

Network calls are modelled by passing each provider call outcome as an
explicit `Except` value (the oracle of the single round trip the code
performs); everything else is translated directly from the source.
-/

set_option maxRecDepth 4096

/-- Role of a client chat message: the source type restricts `text`
messages to `"user" | "assistant"`. -/
inductive ChatRole
| user
| assistant
deriving DecidableEq

/-- Role of a provider message (`VeniceMessage.role` in `src/lib/venice.ts`
line 65): `"system" | "user" | "assistant"`. -/
inductive VeniceRole
| system
| user
| assistant
deriving DecidableEq

/-- Widening of a client text-message role into a provider role. -/
def ChatRole.toVeniceRole : ChatRole → VeniceRole
| .user => .user
| .assistant => .assistant

/-- One provider chat turn (`VeniceMessage`), with the plain string content
used by the chat flow. -/
structure VeniceMessage where
  role : VeniceRole
  content : String
deriving DecidableEq

/-- The client `ChatMessage` tagged union (component source lines 17-38). -/
inductive ChatMessage
| text (id : String) (role : ChatRole) (content : String)
| image (id : String) (imageBase64 : String) (description : Option String)
| audio (id : String) (audioBase64 : String) (mimeType : String) (text : String)
deriving DecidableEq

/-- Model of `ChatThread` (component source lines 53-58). -/
structure ChatThread where
  id : String
  name : String
  createdAt : Nat
  messages : List ChatMessage
deriving DecidableEq

/-- Model of `StoredThreadsState`, the persisted snapshot shape (lines 60-63). -/
structure StoredThreadsState where
  activeThreadId : String
  threads : List ChatThread
deriving DecidableEq

/-- The character descriptor handed to the component.  The page passes
every field as a string, with the empty string standing for an absent
value (JS falsy). -/
structure Character where
  slug : String
  name : String
  photoUrl : String
deriving DecidableEq

/-- The transient processing indicator (`"image" | "text" | null`). -/
inductive PendingKind
| image
| text
deriving DecidableEq

/-- The React state of the multi-thread `ChatExperience` component
(lines 81-97). -/
structure ChatState where
  threads : List ChatThread
  activeThreadId : String
  input : String
  isImageMode : Bool
  isVoiceMode : Bool
  isEditMode : Bool
  isProcessing : Bool
  pendingIndicator : Option PendingKind
  errorMessage : Option String
deriving DecidableEq

/-- The JSON payload `{ base64, mimeType }` returned by `synthesizeSpeech`. -/
structure AudioPayload where
  base64 : String
  mimeType : String
deriving DecidableEq

/-- Model of `responseFormat : "mp3" | "wav" | "ogg"` of `synthesizeSpeech`. -/
inductive SpeechFormat
| mp3
| wav
| ogg
deriving DecidableEq

/-- The nested ternary of `src/lib/venice.ts` lines 256-261 deriving the
mime type from the requested codec. -/
def speechMimeType : SpeechFormat → String
| .wav => "audio/wav"
| .ogg => "audio/ogg"
| .mp3 => "audio/mpeg"

/-- The standard base64 alphabet, used to model `Buffer.toString "base64"`. -/
def base64Alphabet : List Char :=
  "ABCDEFGHIJKLMNOPQRSTUVWXYZabcdefghijklmnopqrstuvwxyz0123456789+/".toList

/-- Character for one 6-bit group. -/
def base64Char (n : Nat) : Char := base64Alphabet.getD n '='

/-- Base64 encoding of a byte list, three bytes at a time with padding. -/
def base64EncodeAux : List Nat → List Char
| [] => []
| [b1] => [base64Char (b1 / 4), base64Char (b1 % 4 * 16), '=', '=']
| [b1, b2] =>
    [base64Char (b1 / 4), base64Char (b1 % 4 * 16 + b2 / 16),
     base64Char (b2 % 16 * 4), '=']
| b1 :: b2 :: b3 :: rest =>
    base64Char (b1 / 4) :: base64Char (b1 % 4 * 16 + b2 / 16) ::
      base64Char (b2 % 16 * 4 + b3 / 64) :: base64Char (b3 % 64) ::
      base64EncodeAux rest

/-- Model of `Buffer.from(bytes).toString("base64")`. -/
def base64Encode (bytes : List Nat) : String := String.mk (base64EncodeAux bytes)

/-- Model of `synthesizeSpeech` (`src/lib/venice.ts` lines 231-267).  The single
`veniceFetch` round trip is the `transport` argument: `.error m` when the
fetch rejected or returned a non-2xx status (after error-body parsing),
`.ok bytes` when it returned a 2xx binary payload.  The source converts
the payload with `result.toString("base64")` and derives the mime type
from the requested codec; it performs no emptiness check on the payload. -/
def synthesizeSpeech (transport : Except String (List Nat))
    (responseFormat : SpeechFormat) : Except String AudioPayload :=
  match transport with
  | .error msg => .error msg
  | .ok bytes =>
      .ok { base64 := base64Encode bytes, mimeType := speechMimeType responseFormat }

/-- Claim C3 counterexample: a successful transport round trip with an
empty payload does not fail; `synthesizeSpeech` returns a successful
result carrying the empty base64 string (and the default mp3 mime type). -/
theorem c3_counterexample :
    synthesizeSpeech (Except.ok []) SpeechFormat.mp3
      = Except.ok { base64 := "", mimeType := "audio/mpeg" } := rfl

/-- Claim C3 (amended): `synthesizeSpeech` performs no empty-payload
check — every successful transport round trip yields a successful result
whose base64 field encodes the payload (so an empty payload yields an
empty audio string rather than a `NoAudioProduced` failure), and only a
transport error makes the operation fail. -/
theorem synthesizeSpeech_amended :
    (∀ (bytes : List Nat) (fmt : SpeechFormat),
       synthesizeSpeech (Except.ok bytes) fmt
         = Except.ok { base64 := base64Encode bytes, mimeType := speechMimeType fmt }) ∧
    (∀ (msg : String) (fmt : SpeechFormat),
       synthesizeSpeech (Except.error msg) fmt = Except.error msg) ∧
    base64Encode [] = "" := by
  refine ⟨fun bytes fmt => rfl, fun msg fmt => rfl, rfl⟩

/-- JS `Array.prototype.slice` called with a negative start index:
`xs.slice(-n)` keeps the last `n` elements (all of them when the array is
shorter than `n`). -/
def jsSliceLast (n : Nat) (l : List α) : List α := l.drop (l.length - n)

/-- Model of JS `String.prototype.trim` over the character list (the
source only ever trims ordinary user text, so the common whitespace
characters suffice). -/
def isJsWhitespace (c : Char) : Bool :=
  (c == ' ') || (c == '\t') || (c == '\n') || (c == '\r')

/-- JS `s.trim()`: drop whitespace from both ends. -/
def jsTrim (s : String) : String :=
  String.mk
    (((s.data.dropWhile isJsWhitespace).reverse.dropWhile isJsWhitespace).reverse)

/-- The type guard `message.type === "text"` (component line 155). -/
def isTextMessage : ChatMessage → Bool
| .text .. => true
| _ => false

/-- The projection `{ role, content }` applied after the text filter
(component lines 159-162).  The image and audio branches are unreachable
behind the filter; they map to a dummy assistant entry. -/
def toCompletionEntry : ChatMessage → VeniceMessage
| .text _ r c => { role := r.toVeniceRole, content := c }
| .image .. => { role := .assistant, content := "" }
| .audio .. => { role := .assistant, content := "" }

/-- Model of `historyForCompletion` (component lines 151-164): keep only text
messages, take the last 20, and project each to `{ role, content }`. -/
def historyForCompletion (messages : List ChatMessage) : List VeniceMessage :=
  (jsSliceLast 20 (messages.filter isTextMessage)).map toCompletionEntry

/-- Text-message projection as an optional-valued map, used to state that the
window preserves the order of the source list. -/
def textEntry? : ChatMessage → Option VeniceMessage
| .text _ r c => some { role := r.toVeniceRole, content := c }
| _ => none

/-- The chat route truncation (`body.messages.slice(-20)` in the chat
handler, lines 30-35): the incoming array is cut to its most recent 20
entries before `createChatCompletion` is called. -/
def normalizeMessages (messages : List VeniceMessage) : List VeniceMessage :=
  jsSliceLast 20 messages

/-- The default system instruction prepended when the character has no
persona slug (component lines 331-336). -/
def defaultSystemPrompt : String := "You are a helpful assistant."

/-- The request body built by the text flow of `handleSend` (component
lines 323-336): windowed history, then the new user turn, with the
default system instruction unshifted when `character.slug` is falsy. -/
def buildRequestMessages (history : List VeniceMessage) (userContent : String)
    (slug : String) : List VeniceMessage :=
  let base := history ++ [{ role := .user, content := userContent }]
  if slug = "" then { role := .system, content := defaultSystemPrompt } :: base
  else base

/-- Outcome of the chat route (`POST /api/venice/chat`), as observed by
the client: either a 2xx JSON body `{ reply, audio? }` or an error body
with its HTTP status. -/
inductive ChatApiResponse
| ok (reply : String) (audio : Option AudioPayload)
| err (status : Nat) (message : String)
deriving DecidableEq

/-- The chat route handler (route source lines 19-55).  `chatOutcome` is
the outcome of the `createChatCompletion` call on the truncated messages
and `ttsOutcome` the outcome of the `synthesizeSpeech` call; a rejection
of either is caught by the handler and returned as a 500 error body, so
a speech-synthesis failure discards the already-computed reply. -/
def chatPOST (messages : List VeniceMessage) (voiceEnabled : Bool)
    (chatOutcome : Except String String)
    (ttsOutcome : Except String AudioPayload) : ChatApiResponse :=
  if messages.isEmpty then .err 400 "messages array is required"
  else
    match chatOutcome with
    | .error msg => .err 500 msg
    | .ok reply =>
        if voiceEnabled then
          match ttsOutcome with
          | .error msg => .err 500 msg
          | .ok audio => .ok reply (some audio)
        else .ok reply none

/-- Outcome of the image route (`POST /api/venice/image`): a 2xx JSON
body `{ imageBase64, description }` (description null when the describe
step failed) or an error body with its HTTP status. -/
inductive ImageApiResponse
| ok (imageBase64 : String) (description : Option String)
| err (status : Nat) (message : String)
deriving DecidableEq

/-- The image route handler (image route source lines 287-328).
`imageOutcome` is the outcome of the `generateImage` or `editImage`
call selected by `mode`; `describeOutcome` is the outcome of the
best-effort `describeImage` call, whose failure is swallowed (logged
only) leaving the description null. -/
def imagePOST (prompt : String) (editMode : Bool) (imageUrl : String)
    (imageOutcome : Except String String)
    (describeOutcome : Except String String) : ImageApiResponse :=
  if prompt = "" then .err 400 "prompt is required"
  else if editMode && (imageUrl == "") then .err 400 "imageUrl is required for edit mode"
  else
    match imageOutcome with
    | .error msg => .err 500 msg
    | .ok imageBase64 =>
        match describeOutcome with
        | .error _ => .ok imageBase64 none
        | .ok description => .ok imageBase64 (some description)

/-- Model of `l.find?` specialised to looking a thread up by id, as done by the
component via `threads.find(t => t.id === id)`. -/
def findThread (l : List ChatThread) (threadId : String) : Option ChatThread :=
  l.find? (fun t => t.id == threadId)

/-- The `activeThread` memo (component lines 143-147): the thread whose
id matches the pointer, falling back to the first thread, or null when
there are no threads at all. -/
def activeThread (s : ChatState) : Option ChatThread :=
  match findThread s.threads s.activeThreadId with
  | some t => some t
  | none => s.threads.head?

/-- Model of `activeMessages` read through a thread id: the message log of the
thread with that id (empty when the id resolves to no thread). -/
def messagesOf (s : ChatState) (threadId : String) : List ChatMessage :=
  match findThread s.threads threadId with
  | some t => t.messages
  | none => []

/-- Model of `canEditImage` (component lines 100-102):
`Boolean(photoUrl && photoUrl.trim().length > 0)`. -/
def canEditImage (c : Character) : Bool :=
  (c.photoUrl != "") && (jsTrim c.photoUrl != "")

/-- Which flow `handleSend` runs for a state: the image flag is examined
first (line 282), the voice flag only inside the non-image branch. -/
inductive ActiveMode
| text
| image
| voice
deriving DecidableEq

/-- Derived mutually-exclusive mode of a state. -/
def activeMode (s : ChatState) : ActiveMode :=
  if s.isImageMode then .image else if s.isVoiceMode then .voice else .text

/-- Model of `updateThreadMessages` (component lines 203-220): map over the thread
list, replacing the message log of every thread whose id matches. -/
def updateThreadMessages (s : ChatState) (threadId : String)
    (updater : List ChatMessage → List ChatMessage) : ChatState :=
  { s with threads :=
      s.threads.map (fun t =>
        if t.id == threadId then { t with messages := updater t.messages } else t) }

/-- Model of `handleSelectThread` (component lines 222-226): set the pointer
unconditionally and clear the error banner and pending indicator. -/
def handleSelectThread (s : ChatState) (threadId : String) : ChatState :=
  { s with activeThreadId := threadId, errorMessage := none, pendingIndicator := none }

/-- Model of `createThread` (component lines 67-74), with the generated id and the
clock reading passed in explicitly. -/
def createThread (id : String) (now : Nat) (name : Option String) : ChatThread :=
  { id := id, name := name.getD "New chat", createdAt := now, messages := [] }

/-- Model of `handleCreateThread` (component lines 228-235). -/
def handleCreateThread (s : ChatState) (id : String) (now : Nat) : ChatState :=
  let newThread := createThread id now (some ("Chat " ++ toString (s.threads.length + 1)))
  { s with threads := s.threads ++ [newThread], activeThreadId := newThread.id,
           input := "", errorMessage := none, pendingIndicator := none }

/-- The pointer adjustment inside `handleDeleteThread`: when the deleted
id was active, activation falls to the last remaining thread. -/
def deleteThreadActive (s : ChatState) (threadId : String) : ChatState :=
  if threadId == s.activeThreadId then
    match (s.threads.filter (fun t => t.id != threadId)).getLast? with
    | some nextThread => { s with activeThreadId := nextThread.id }
    | none => s
  else s

/-- Model of `handleDeleteThread` (component lines 237-254): rejected outright
when at most one thread remains, otherwise every thread with the given
id is filtered out. -/
def handleDeleteThread (s : ChatState) (threadId : String) : ChatState :=
  if s.threads.length ≤ 1 then s
  else
    { deleteThreadActive s threadId with
        threads := s.threads.filter (fun t => t.id != threadId) }

/-- The hydration effect (component lines 104-128) restoring a persisted
`StoredThreadsState`: adopted only when the parsed thread list is
nonempty, with the active pointer falling back to the first thread when
the stored reference is falsy or resolves to no stored thread. -/
def hydrateThreads (s : ChatState) (stored : StoredThreadsState) : ChatState :=
  match stored.threads with
  | [] => s
  | t0 :: _ =>
      let active :=
        if stored.activeThreadId != ""
            && stored.threads.any (fun t => t.id == stored.activeThreadId) then
          stored.activeThreadId
        else t0.id
      { s with threads := stored.threads, activeThreadId := active }

/-- Model of `handleToggleImageMode` (component lines 179-189): clear the error
banner; toggling on also clears voice mode and the edit flag, toggling
off changes nothing else. -/
def handleToggleImageMode (s : ChatState) : ChatState :=
  let cleared := { s with errorMessage := none }
  if cleared.isImageMode then { cleared with isImageMode := false }
  else { cleared with isImageMode := true, isVoiceMode := false, isEditMode := false }

/-- Model of `handleToggleVoiceMode` (component lines 191-201), symmetric. -/
def handleToggleVoiceMode (s : ChatState) : ChatState :=
  let cleared := { s with errorMessage := none }
  if cleared.isVoiceMode then { cleared with isVoiceMode := false }
  else { cleared with isVoiceMode := true, isImageMode := false, isEditMode := false }

/-- A click on the image-mode toggle button, which carries
`disabled := isProcessing` (component line 612): while a turn is in
flight the click is dropped by the UI before the handler runs. -/
def clickToggleImageMode (s : ChatState) : ChatState :=
  if s.isProcessing then s else handleToggleImageMode s

/-- A click on the voice-mode toggle button (`disabled := isProcessing`,
component line 646). -/
def clickToggleVoiceMode (s : ChatState) : ChatState :=
  if s.isProcessing then s else handleToggleVoiceMode s

/-- A click on the edit checkbox, which carries
`disabled := !canEditImage || isProcessing || !isImageMode`
(component lines 632-634). -/
def clickToggleEditMode (c : Character) (s : ChatState) : ChatState :=
  if !canEditImage c || s.isProcessing || !s.isImageMode then s
  else { s with isEditMode := !s.isEditMode }

/-- JS `a || b` for strings: the fallback replaces an empty (falsy)
string. -/
def jsStringOr (s fallback : String) : String := if s = "" then fallback else s

/-- JS truthiness of a nullable string field. -/
def jsOptTruthy : Option String → Bool
| some s => s != ""
| none => false

/-- JS `x || undefined` for a nullable string: null and the empty string
both become undefined. -/
def jsOptOrUndefined (o : Option String) : Option String :=
  if jsOptTruthy o then o else none

/-- Outcomes of the provider calls a single turn may perform, one per
gateway capability reachable from `handleSend`. -/
structure Oracles where
  chat : Except String String
  tts : Except String AudioPayload
  image : Except String String
  describe : Except String String

/-- The catch block of `handleSend` (component lines 388-401): append a
synthetic assistant text message `Error: <message>` to the target thread
and surface the message in the error banner. -/
def appendErrorMessage (s : ChatState) (threadId msgId message : String) : ChatState :=
  let s1 := updateThreadMessages s threadId
    (fun prev => prev ++ [ChatMessage.text msgId .assistant ("Error: " ++ message)])
  { s1 with errorMessage := some message }

/-- The body of `handleSend` after its guards (component lines 259-401):
clear the input, mark processing, append the user turn, then run the
image or the text flow against the route handlers, recording results or
the caught error on the target thread.  `ids n` supplies the value of
the n-th `randomId()` call of this run. -/
def sendCore (c : Character) (ids : Nat → String) (o : Oracles)
    (s : ChatState) (thread : ChatThread) : ChatState :=
  let trimmedInput := jsTrim s.input
  let s1 : ChatState := { s with input := "", isProcessing := true, errorMessage := none }
  let targetThreadId := thread.id
  let userMessage : ChatMessage := .text (ids 0) .user trimmedInput
  let s2 := updateThreadMessages s1 targetThreadId (fun prev => prev ++ [userMessage])
  let currentImageMode := s.isImageMode
  let currentVoiceMode := s.isVoiceMode
  let currentEditMode := s.isEditMode && canEditImage c
  let indicator := if currentImageMode then PendingKind.image else PendingKind.text
  let s3 : ChatState := { s2 with pendingIndicator := some indicator }
  if currentImageMode then
    match imagePOST trimmedInput currentEditMode
        (if currentEditMode then c.photoUrl else "") o.image o.describe with
    | .err _ msg =>
        appendErrorMessage s3 targetThreadId (ids 1) (jsStringOr msg "Image generation failed")
    | .ok imageBase64 description =>
        let imageMessage : ChatMessage :=
          .image (ids 1) imageBase64 (jsOptOrUndefined description)
        updateThreadMessages s3 targetThreadId (fun prev =>
          let updated := prev ++ [imageMessage]
          if jsOptTruthy description then
            updated ++ [ChatMessage.text (ids 2) .assistant
              ("Here is " ++ description.getD "")]
          else updated)
  else
    let requestMessages :=
      buildRequestMessages (historyForCompletion thread.messages) trimmedInput c.slug
    match chatPOST requestMessages currentVoiceMode o.chat o.tts with
    | .err _ msg =>
        appendErrorMessage s3 targetThreadId (ids 1)
          (jsStringOr msg "Unable to fetch response from Venice.")
    | .ok reply audio =>
        let aiMessage : ChatMessage := .text (ids 1) .assistant reply
        let s4 := updateThreadMessages s3 targetThreadId (fun prev => prev ++ [aiMessage])
        match audio with
        | some a =>
            if currentVoiceMode && (a.base64 != "") && (a.mimeType != "") then
              updateThreadMessages s4 targetThreadId (fun prev =>
                prev ++ [ChatMessage.audio (ids 2) a.base64 a.mimeType reply])
            else s4
        | none => s4

/-- The finally block of `handleSend` (component lines 402-408): clear
the pending indicator, the processing flag, and all three mode flags,
whatever the outcome of the turn. -/
def finalizeSend (s : ChatState) : ChatState :=
  { s with pendingIndicator := none, isProcessing := false,
           isImageMode := false, isVoiceMode := false, isEditMode := false }

/-- Model of `handleSend` (component lines 256-408): silently no-op when the
trimmed input is empty, a turn is already in flight, or no thread
resolves as active; otherwise run the turn body and the finally block. -/
def handleSend (c : Character) (ids : Nat → String) (o : Oracles)
    (s : ChatState) : ChatState :=
  if jsTrim s.input = "" ∨ s.isProcessing = true then s
  else
    match activeThread s with
    | none => s
    | some thread => finalizeSend (sendCore c ids o s thread)

/-- One session-store operation, as invoked through the component
handlers (create, select, delete, append, restore-from-storage). -/
inductive SessionOp
| create (id : String) (now : Nat)
| select (id : String)
| delete (id : String)
| append (threadId : String) (msgs : List ChatMessage)
| restore (stored : StoredThreadsState)

/-- Apply one session-store operation through its component handler. -/
def applyOp (s : ChatState) : SessionOp → ChatState
| .create id now => handleCreateThread s id now
| .select id => handleSelectThread s id
| .delete id => handleDeleteThread s id
| .append threadId msgs => updateThreadMessages s threadId (fun prev => prev ++ msgs)
| .restore stored => hydrateThreads s stored

/-- Apply a sequence of session-store operations in order. -/
def applyOps (s : ChatState) (ops : List SessionOp) : ChatState :=
  ops.foldl applyOp s

/-- The thread ids currently held by the store. -/
def threadIds (s : ChatState) : List String := s.threads.map (fun t => t.id)

/-- Freshness side conditions: a created thread gets an id not already in
the store (the source draws a UUID) and a restored snapshot carries
pairwise-distinct thread ids.  The other operations need nothing. -/
def opOk (s : ChatState) : SessionOp → Prop
| .create id _ => id ∉ threadIds s
| .restore stored => (stored.threads.map (fun t => t.id)).Nodup
| _ => True

/-- Iterated side condition: `opOk` holding at every step of a sequence. -/
def opsOk : ChatState → List SessionOp → Prop
| _, [] => True
| s, op :: rest => opOk s op ∧ opsOk (applyOp s op) rest

/-- The store invariant: at least one thread, with distinct ids. -/
def SessionInv (s : ChatState) : Prop :=
  1 ≤ s.threads.length ∧ (threadIds s).Nodup

/-- A character with every field absent (the page supplies empty strings
when the environment variables are unset). -/
def demoCharacter : Character := { slug := "", name := "", photoUrl := "" }

/-- The initial thread of a fresh session. -/
def demoThread : ChatThread := { id := "t1", name := "Session 1", createdAt := 0, messages := [] }

/-- Deterministic stand-in for the sequence of `randomId()` draws. -/
def demoIds : Nat → String := fun n => toString n

/-- Provider outcomes where every call succeeds. -/
def demoOracles : Oracles :=
  { chat := .ok "hi there", tts := .ok { base64 := "QUJD", mimeType := "audio/mpeg" },
    image := .ok "IMG64", describe := .ok "a red fox" }

/-- A fresh session state holding only the initial thread. -/
def baseState : ChatState :=
  { threads := [demoThread], activeThreadId := "t1", input := "",
    isImageMode := false, isVoiceMode := false, isEditMode := false,
    isProcessing := false, pendingIndicator := none, errorMessage := none }

/-- Text+Voice state about to submit "hi" (claim C1). -/
def c1State : ChatState :=
  { baseState with input := "hi", isVoiceMode := true }

/-- Oracles for the voice-on-chat failure scenario: the chat call
succeeds with "ok", speech synthesis fails with "quota exceeded". -/
def c1Oracles : Oracles :=
  { chat := .ok "ok", tts := .error "quota exceeded",
    image := .ok "", describe := .ok "" }

/-- Two distinct threads for the selection claims. -/
def c2ThreadA : ChatThread := { id := "a", name := "A", createdAt := 0, messages := [] }

/-- Second thread, currently active in `c2State`. -/
def c2ThreadB : ChatThread := { id := "b", name := "B", createdAt := 1, messages := [] }

/-- A session whose active thread is the second of two threads. -/
def c2State : ChatState :=
  { baseState with threads := [c2ThreadA, c2ThreadB], activeThreadId := "b" }

/-- Image mode with the edit flag set (claim C4). -/
def c4State : ChatState :=
  { baseState with isImageMode := true, isEditMode := true }

/-- Text mode, nothing active yet, used to witness the toggle-on rule. -/
def c4OffState : ChatState := baseState

/-- A state with a turn in flight and a typed submission (claim C5). -/
def c5State : ChatState :=
  { baseState with input := "queued", isProcessing := true, isImageMode := true }

/-- Image mode about to submit "a red fox" (claim C6). -/
def c6State : ChatState :=
  { baseState with input := "a red fox", isImageMode := true }

/-- Oracles for the image-with-failed-description scenario. -/
def c6Oracles : Oracles :=
  { chat := .ok "", tts := .error "", image := .ok "B64", describe := .error "boom" }

/-- Image mode with the edit flag set and pending input (claim C7). -/
def c7State : ChatState :=
  { baseState with input := "draw", isImageMode := true, isEditMode := true }

/-- A corrupted persisted snapshot: two stored threads share one id. -/
def c8Stored : StoredThreadsState :=
  { activeThreadId := "a",
    threads := [{ id := "a", name := "x", createdAt := 0, messages := [] },
                { id := "a", name := "y", createdAt := 0, messages := [] }] }

/-- A small mixed message log for the history-window witness. -/
def c9Msgs : List ChatMessage :=
  [ChatMessage.text "u1" .user "hello",
   ChatMessage.image "i1" "IMG" none,
   ChatMessage.audio "s1" "AUD" "audio/mpeg" "spoken",
   ChatMessage.text "a1" .assistant "hi there"]

/-- Twenty text turns, enough to overflow the server window once the
user turn and default system instruction are added (claim C10). -/
def demoMsgs20 : List ChatMessage :=
  List.replicate 20 (ChatMessage.text "m" .user "x")

/-- The request the client builds from that history with no persona
slug. -/
def reqDemo : List VeniceMessage :=
  buildRequestMessages (historyForCompletion demoMsgs20) "hello" ""

/-- Updating rewrites exactly the log of the thread that a
lookup by the same id finds. -/
theorem find?_map_updateIf (l : List ChatThread) (tid : String)
    (f : List ChatMessage → List ChatMessage) :
    (l.map (fun t => if t.id == tid then { t with messages := f t.messages } else t)).find?
        (fun t => t.id == tid)
      = (l.find? (fun t => t.id == tid)).map
          (fun t => { t with messages := f t.messages }) := by
  induction l with
  | nil => rfl
  | cons hd tl ih =>
      rw [List.map_cons]
      by_cases h : (hd.id == tid) = true
      · rw [if_pos h,
          @List.find?_cons_of_pos _ (fun t : ChatThread => t.id == tid)
            { hd with messages := f hd.messages } _ h,
          @List.find?_cons_of_pos _ (fun t : ChatThread => t.id == tid) hd tl h]
        rfl
      · rw [if_neg h,
          @List.find?_cons_of_neg _ (fun t : ChatThread => t.id == tid) hd _ h,
          @List.find?_cons_of_neg _ (fun t : ChatThread => t.id == tid) hd tl h]
        exact ih

/-- State-level version of the lookup-after-update lemma. -/
theorem findThread_update (s : ChatState) (tid : String)
    (f : List ChatMessage → List ChatMessage) :
    findThread (updateThreadMessages s tid f).threads tid
      = (findThread s.threads tid).map (fun t => { t with messages := f t.messages }) := by
  simpa [findThread, updateThreadMessages] using find?_map_updateIf s.threads tid f

/-- Reading the updated log back out of `updateThreadMessages`. -/
theorem messagesOf_update (s : ChatState) (tid : String)
    (f : List ChatMessage → List ChatMessage) (t : ChatThread)
    (h : findThread s.threads tid = some t) :
    messagesOf (updateThreadMessages s tid f) tid = f t.messages := by
  simp [messagesOf, findThread_update, h]

/-- The lookup still succeeds after an update, on the rewritten thread. -/
theorem findThread_update_some (s : ChatState) (tid : String)
    (f : List ChatMessage → List ChatMessage) (t : ChatThread)
    (h : findThread s.threads tid = some t) :
    findThread (updateThreadMessages s tid f).threads tid
      = some { t with messages := f t.messages } := by
  rw [findThread_update, h]; rfl

/-- A resolved active thread is also found by looking its own id up. -/
theorem activeThread_find (s : ChatState) (t : ChatThread)
    (h : activeThread s = some t) :
    findThread s.threads t.id = some t := by
  unfold activeThread at h
  cases hf : findThread s.threads s.activeThreadId with
  | some u =>
      rw [hf] at h
      have hu : u = t := by simpa using h
      subst hu
      have hpred := List.find?_some hf
      have hid : u.id = s.activeThreadId := by simpa using hpred
      unfold findThread
      rw [hid]
      exact hf
  | none =>
      rw [hf] at h
      have hh : s.threads.head? = some t := by simpa using h
      cases hl : s.threads with
      | nil => rw [hl] at hh; simp at hh
      | cons a as =>
          rw [hl] at hh
          have ha : a = t := by simpa using hh
          subst ha
          simp [findThread, List.find?]

/-- Reading the log of a found thread. -/
theorem messagesOf_eq_of_find (s : ChatState) (tid : String) (t : ChatThread)
    (h : findThread s.threads tid = some t) : messagesOf s tid = t.messages := by
  simp [messagesOf, h]

/-- The thread ids are untouched by a message-log update (list level). -/
theorem map_id_updateIf (l : List ChatThread) (tid : String)
    (f : List ChatMessage → List ChatMessage) :
    (l.map (fun t => if t.id == tid then { t with messages := f t.messages } else t)).map
        (fun t => t.id)
      = l.map (fun t => t.id) := by
  induction l with
  | nil => rfl
  | cons hd tl ih =>
      rw [List.map_cons, List.map_cons, List.map_cons]
      by_cases h : (hd.id == tid) = true
      · rw [if_pos h, ih]
      · rw [if_neg h, ih]

/-- The thread ids are untouched by `updateThreadMessages`. -/
theorem threadIds_update (s : ChatState) (tid : String)
    (f : List ChatMessage → List ChatMessage) :
    threadIds (updateThreadMessages s tid f) = threadIds s := by
  simpa [threadIds, updateThreadMessages] using map_id_updateIf s.threads tid f

/-- The request the text flow builds always holds at least the user
turn, so the route-side emptiness validation never fires. -/
theorem buildRequestMessages_ne_nil (history : List VeniceMessage) (u slug : String) :
    (buildRequestMessages history u slug).isEmpty = false := by
  simp only [buildRequestMessages]
  split
  · rfl
  · cases history <;> rfl

/-- History-window entries never carry the system role. -/
theorem toCompletionEntry_role (m : ChatMessage) :
    (toCompletionEntry m).role ≠ VeniceRole.system := by
  cases m with
  | text id r c => cases r <;> simp [toCompletionEntry, ChatRole.toVeniceRole]
  | image id img d => simp [toCompletionEntry]
  | audio id a mt tx => simp [toCompletionEntry]

/-- Filtering to text messages then projecting is the same as mapping
the optional-valued text projection. -/
theorem map_filter_text_eq_filterMap (l : List ChatMessage) :
    (l.filter isTextMessage).map toCompletionEntry = l.filterMap textEntry? := by
  induction l with
  | nil => rfl
  | cons hd tl ih =>
      cases hd <;>
        simp [isTextMessage, textEntry?, toCompletionEntry, List.filter_cons,
          List.filterMap_cons, ih]

/-- With pairwise-distinct ids, filtering one id out removes at most one
thread. -/
theorem length_filter_ne_id (l : List ChatThread) (tid : String)
    (h : (l.map (fun t => t.id)).Nodup) :
    l.length - 1 ≤ (l.filter (fun t => t.id != tid)).length := by
  induction l with
  | nil => simp
  | cons hd tl ih =>
      rw [List.map_cons, List.nodup_cons] at h
      obtain ⟨hhd, htl⟩ := h
      by_cases hid : hd.id = tid
      · have hpred : (hd.id != tid) = false := by simp [hid]
        have hfilter : tl.filter (fun t => t.id != tid) = tl := by
          apply List.filter_eq_self.mpr
          intro a ha
          have hne : a.id ≠ tid := by
            intro hEq
            apply hhd
            have : a.id ∈ tl.map (fun t => t.id) := List.mem_map_of_mem _ ha
            rw [hEq, ← hid] at this
            exact this
          simpa using hne
        rw [List.filter_cons, hfilter]
        simp [hpred]
      · have hpred : (hd.id != tid) = true := by simpa using hid
        rw [List.filter_cons]
        have := ih htl
        simp only [hpred, if_pos]
        simp only [List.length_cons]
        omega

/-- Filtering preserves distinctness of the ids. -/
theorem nodup_ids_filter (l : List ChatThread) (p : ChatThread → Bool)
    (h : (l.map (fun t => t.id)).Nodup) :
    ((l.filter p).map (fun t => t.id)).Nodup :=
  List.Nodup.sublist (List.Sublist.map _ (List.filter_sublist _)) h

/-- One well-behaved session operation preserves the store invariant. -/
theorem sessionInv_step (s : ChatState) (op : SessionOp)
    (hinv : SessionInv s) (hop : opOk s op) : SessionInv (applyOp s op) := by
  obtain ⟨hlen, hnodup⟩ := hinv
  cases op with
  | create id now =>
      refine ⟨?_, ?_⟩
      · simp [applyOp, handleCreateThread, createThread]
      · have hfresh : id ∉ threadIds s := hop
        have : threadIds (handleCreateThread s id now)
            = threadIds s ++ [id] := by
          simp [threadIds, handleCreateThread, createThread]
        simp only [applyOp, this]
        rw [List.nodup_append]
        refine ⟨hnodup, List.nodup_singleton id, ?_⟩
        intro a ha hb
        rw [List.mem_singleton] at hb
        subst hb
        exact hfresh ha
  | select id => exact ⟨hlen, hnodup⟩
  | delete id =>
      simp only [applyOp, handleDeleteThread]
      by_cases hle : s.threads.length ≤ 1
      · rw [if_pos hle]; exact ⟨hlen, hnodup⟩
      · rw [if_neg hle]
        refine ⟨?_, ?_⟩
        · have := length_filter_ne_id s.threads id hnodup
          have h2 : 2 ≤ s.threads.length := by omega
          show 1 ≤ (s.threads.filter (fun t => t.id != id)).length
          omega
        · show ((s.threads.filter (fun t => t.id != id)).map (fun t => t.id)).Nodup
          exact nodup_ids_filter s.threads _ hnodup
  | append tid msgs =>
      refine ⟨?_, ?_⟩
      · have : threadIds (updateThreadMessages s tid (fun prev => prev ++ msgs))
            = threadIds s := threadIds_update s tid _
        have hlen2 : (threadIds s).length = s.threads.length := by
          simp [threadIds]
        have hlen3 : (threadIds (applyOp s (.append tid msgs))).length
            = (applyOp s (.append tid msgs)).threads.length := by
          simp [threadIds]
        simp only [applyOp] at hlen3 ⊢
        rw [← hlen3, this, hlen2]
        exact hlen
      · simp only [applyOp]
        rw [show threadIds (updateThreadMessages s tid (fun prev => prev ++ msgs))
              = threadIds s from threadIds_update s tid _]
        exact hnodup
  | restore stored =>
      cases hst : stored.threads with
      | nil => simp only [applyOp, hydrateThreads, hst]; exact ⟨hlen, hnodup⟩
      | cons t0 rest =>
          have hnd : (stored.threads.map (fun t => t.id)).Nodup := hop
          refine ⟨?_, ?_⟩
          · simp [applyOp, hydrateThreads, hst]
          · simp only [applyOp, hydrateThreads, hst, threadIds]
            rw [← hst]
            exact hnd

/-- A sequence of well-behaved session operations preserves the store
invariant. -/
theorem sessionInv_ops (ops : List SessionOp) (s : ChatState)
    (hinv : SessionInv s) (hops : opsOk s ops) : SessionInv (applyOps s ops) := by
  induction ops generalizing s with
  | nil => exact hinv
  | cons op rest ih =>
      obtain ⟨h1, h2⟩ := hops
      exact ih (applyOp s op) (sessionInv_step s op hinv h1) h2

/-- Claim C9 (confirmed): for every message list, the history window
returns at most 20 entries, every returned entry is the projection of a
text message of the source log (image and audio messages are excluded),
and the entries form a sublist of the text-projected source, hence
preserve its chronological order. -/
theorem historyWindow_props (msgs : List ChatMessage) :
    (historyForCompletion msgs).length ≤ 20 ∧
    (∀ e ∈ historyForCompletion msgs, ∃ id r content,
       ChatMessage.text id r content ∈ msgs ∧
       e = { role := r.toVeniceRole, content := content }) ∧
    (historyForCompletion msgs).Sublist (msgs.filterMap textEntry?) := by
  refine ⟨?_, ?_, ?_⟩
  · simp only [historyForCompletion, jsSliceLast, List.length_map, List.length_drop]
    omega
  · intro e he
    simp only [historyForCompletion, List.mem_map] at he
    obtain ⟨m, hm, hme⟩ := he
    have hm2 : m ∈ msgs.filter isTextMessage := List.mem_of_mem_drop hm
    rw [List.mem_filter] at hm2
    obtain ⟨hmem, htext⟩ := hm2
    cases m with
    | text id r content => exact ⟨id, r, content, hmem, hme.symm⟩
    | image a b d => simp [isTextMessage] at htext
    | audio a b d e2 => simp [isTextMessage] at htext
  · have h1 : (historyForCompletion msgs).Sublist
        ((msgs.filter isTextMessage).map toCompletionEntry) := by
      unfold historyForCompletion jsSliceLast
      exact List.Sublist.map _ (List.drop_sublist _ _)
    rw [map_filter_text_eq_filterMap] at h1
    exact h1

/-- Claim C9 witness: the window properties evaluated on a concrete
mixed log holding two text, one image and one audio message. -/
theorem historyWindow_witness :
    (historyForCompletion c9Msgs).length ≤ 20 ∧
    (∃ id r content, ChatMessage.text id r content ∈ c9Msgs ∧
       ({ role := VeniceRole.assistant, content := "hi there" } : VeniceMessage)
         = { role := r.toVeniceRole, content := content }) ∧
    (historyForCompletion c9Msgs).Sublist (c9Msgs.filterMap textEntry?) :=
  ⟨(historyWindow_props c9Msgs).1,
   (historyWindow_props c9Msgs).2.1
     { role := VeniceRole.assistant, content := "hi there" } (by decide),
   (historyWindow_props c9Msgs).2.2⟩

/-- Claim C10 (confirmed): the chat route truncates the incoming array
to its most recent 20 entries; when the client-built request (windowed
history, user turn, and the default system instruction prepended for a
character with no persona slug) exceeds 20 entries, the earliest entries
are dropped, and in particular no entry sent to the provider carries the
system role any more. -/
theorem truncation_drops_system_instruction (msgs : List ChatMessage)
    (userContent : String)
    (h : 20 < (buildRequestMessages (historyForCompletion msgs) userContent "").length) :
    normalizeMessages (buildRequestMessages (historyForCompletion msgs) userContent "")
      = (buildRequestMessages (historyForCompletion msgs) userContent "").drop
          ((buildRequestMessages (historyForCompletion msgs) userContent "").length - 20) ∧
    (buildRequestMessages (historyForCompletion msgs) userContent "").head?
      = some { role := VeniceRole.system, content := defaultSystemPrompt } ∧
    ∀ m ∈ normalizeMessages (buildRequestMessages (historyForCompletion msgs) userContent ""),
      m.role ≠ VeniceRole.system := by
  have hreq : buildRequestMessages (historyForCompletion msgs) userContent ""
      = { role := VeniceRole.system, content := defaultSystemPrompt }
        :: (historyForCompletion msgs
            ++ [{ role := VeniceRole.user, content := userContent }]) := by
    simp [buildRequestMessages]
  refine ⟨rfl, ?_, ?_⟩
  · rw [hreq]; rfl
  · intro m hm
    simp only [normalizeMessages, jsSliceLast] at hm
    rw [hreq] at hm h
    simp only [List.length_cons] at hm h
    have hk : (historyForCompletion msgs
          ++ [({ role := VeniceRole.user, content := userContent } : VeniceMessage)]).length
            + 1 - 20
        = ((historyForCompletion msgs
          ++ [({ role := VeniceRole.user, content := userContent } : VeniceMessage)]).length
            - 20) + 1 := by
      omega
    rw [hk, List.drop_succ_cons] at hm
    have hmem := List.mem_of_mem_drop hm
    rw [List.mem_append] at hmem
    cases hmem with
    | inl hh =>
        simp only [historyForCompletion, List.mem_map] at hh
        obtain ⟨m0, hm0, hme⟩ := hh
        rw [← hme]
        exact toCompletionEntry_role m0
    | inr hh =>
        rw [List.mem_singleton] at hh
        subst hh
        simp

/-- Claim C10 witness: with twenty windowed text turns, no slug, and the
user turn, the request holds 22 entries; the route keeps the last 20 and
the entry it sends never carries the system role. -/
theorem truncation_witness :
    normalizeMessages reqDemo = reqDemo.drop (reqDemo.length - 20) ∧
    reqDemo.head? = some { role := VeniceRole.system, content := defaultSystemPrompt } ∧
    ({ role := VeniceRole.user, content := "x" } : VeniceMessage).role
      ≠ VeniceRole.system :=
  ⟨(truncation_drops_system_instruction demoMsgs20 "hello" (by decide)).1,
   (truncation_drops_system_instruction demoMsgs20 "hello" (by decide)).2.1,
   (truncation_drops_system_instruction demoMsgs20 "hello" (by decide)).2.2
     { role := VeniceRole.user, content := "x" } (by decide)⟩

/-- Claim C2 counterexample: with two threads and the second one active,
selecting a nonexistent id moves the pointer to that id anyway, and the
resolved active thread changes from the second thread to the first. -/
theorem c2_counterexample :
    activeThread c2State = some c2ThreadB ∧
    (handleSelectThread c2State "zzz").activeThreadId = "zzz" ∧
    activeThread (handleSelectThread c2State "zzz") = some c2ThreadA := by
  decide

/-- Claim C2 (amended): `selectThread` sets the active pointer to the
given id unconditionally; the resolved active thread then is the thread
with that id when one exists, and otherwise falls back to the first
thread of the session, which may differ from the previously active
thread. -/
theorem selectThread_amended (s : ChatState) (tid : String) :
    (handleSelectThread s tid).activeThreadId = tid ∧
    (∀ t : ChatThread, findThread s.threads tid = some t →
       activeThread (handleSelectThread s tid) = some t) ∧
    (findThread s.threads tid = none →
       activeThread (handleSelectThread s tid) = s.threads.head?) := by
  refine ⟨rfl, ?_, ?_⟩
  · intro t ht
    show (match findThread s.threads tid with
          | some u => some u
          | none => s.threads.head?) = some t
    rw [ht]
  · intro hn
    show (match findThread s.threads tid with
          | some u => some u
          | none => s.threads.head?) = s.threads.head?
    rw [hn]

/-- Claim C2 amended witness: selecting an existing id resolves to that
thread; selecting a missing id resolves to the head of the list. -/
theorem selectThread_amended_witness :
    (handleSelectThread c2State "a").activeThreadId = "a" ∧
    activeThread (handleSelectThread c2State "a") = some c2ThreadA ∧
    activeThread (handleSelectThread c2State "zzz") = c2State.threads.head? :=
  ⟨(selectThread_amended c2State "a").1,
   (selectThread_amended c2State "a").2.1 c2ThreadA (by decide),
   (selectThread_amended c2State "zzz").2.2 (by decide)⟩

/-- Claim C4 counterexample: from image mode with the edit flag set,
toggling image mode off moves the active mode away from Image (to Text)
but leaves the edit flag set — the handler resets it only when a mode is
toggled on. -/
theorem c4_counterexample :
    c4State.isImageMode = true ∧ c4State.isEditMode = true ∧
    (handleToggleImageMode c4State).isImageMode = false ∧
    activeMode (handleToggleImageMode c4State) = ActiveMode.text ∧
    (handleToggleImageMode c4State).isEditMode = true := by
  decide

/-- Claim C4 (amended): toggling Image or Voice on clears the other mode
and resets the edit flag; toggling the active mode off returns the state
to Text (under mode exclusivity); but the off transition changes only
the toggled flag, so the edit flag survives the Image-off-to-Text
transition rather than being force-reset. -/
theorem toggle_amended (s : ChatState) :
    (s.isImageMode = false →
       handleToggleImageMode s
         = { s with errorMessage := none, isImageMode := true,
                    isVoiceMode := false, isEditMode := false }) ∧
    (s.isImageMode = true →
       handleToggleImageMode s = { s with errorMessage := none, isImageMode := false }) ∧
    (s.isVoiceMode = false →
       handleToggleVoiceMode s
         = { s with errorMessage := none, isVoiceMode := true,
                    isImageMode := false, isEditMode := false }) ∧
    (s.isVoiceMode = true →
       handleToggleVoiceMode s = { s with errorMessage := none, isVoiceMode := false }) ∧
    (s.isImageMode = true → s.isVoiceMode = false →
       activeMode (handleToggleImageMode s) = ActiveMode.text) ∧
    (s.isVoiceMode = true → s.isImageMode = false →
       activeMode (handleToggleVoiceMode s) = ActiveMode.text) := by
  refine ⟨?_, ?_, ?_, ?_, ?_, ?_⟩
  · intro h; simp [handleToggleImageMode, h]
  · intro h; simp [handleToggleImageMode, h]
  · intro h; simp [handleToggleVoiceMode, h]
  · intro h; simp [handleToggleVoiceMode, h]
  · intro h1 h2; simp [handleToggleImageMode, activeMode, h1, h2]
  · intro h1 h2; simp [handleToggleVoiceMode, activeMode, h1, h2]

/-- Claim C4 amended witness: the toggle-on rule from a clean Text
state, and the off transition from image mode with the edit flag set. -/
theorem toggle_amended_witness :
    handleToggleImageMode c4OffState
      = { c4OffState with errorMessage := none, isImageMode := true,
                          isVoiceMode := false, isEditMode := false } ∧
    handleToggleImageMode c4State
      = { c4State with errorMessage := none, isImageMode := false } ∧
    activeMode (handleToggleImageMode c4State) = ActiveMode.text :=
  ⟨(toggle_amended c4OffState).1 rfl,
   (toggle_amended c4State).2.1 rfl,
   (toggle_amended c4State).2.2.2.2.1 rfl rfl⟩

/-- Claim C5 (confirmed): while a turn is in flight, a further submission
is dropped by the guard of `handleSend` and mode-toggle clicks are
dropped by the disabled attribute of the controls: the state — threads,
active pointer, and mode flags alike — is completely unchanged and
nothing is queued. -/
theorem pending_submit_rejected (c : Character) (ids : Nat → String) (o : Oracles)
    (s : ChatState) (h : s.isProcessing = true) :
    handleSend c ids o s = s ∧
    clickToggleImageMode s = s ∧
    clickToggleVoiceMode s = s ∧
    clickToggleEditMode c s = s := by
  refine ⟨?_, ?_, ?_, ?_⟩
  · unfold handleSend
    rw [if_pos (Or.inr h)]
  · unfold clickToggleImageMode
    rw [if_pos h]
  · unfold clickToggleVoiceMode
    rw [if_pos h]
  · unfold clickToggleEditMode
    have hc : (!canEditImage c || s.isProcessing || !s.isImageMode) = true := by
      rw [h]; simp
    rw [if_pos hc]

/-- Claim C5 witness: with a turn in flight, a typed submission and all
three toggles are silent no-ops on a concrete state. -/
theorem pending_submit_witness :
    handleSend demoCharacter demoIds demoOracles c5State = c5State ∧
    clickToggleImageMode c5State = c5State ∧
    clickToggleVoiceMode c5State = c5State ∧
    clickToggleEditMode demoCharacter c5State = c5State :=
  pending_submit_rejected demoCharacter demoIds demoOracles c5State rfl

/-- Claim C8 counterexample: restoring a corrupted snapshot whose two
stored threads share one id and then deleting that id empties the
session — the delete filter removes every thread with the id at once. -/
theorem c8_counterexample :
    (applyOps baseState [SessionOp.restore c8Stored, SessionOp.delete "a"]).threads.length
      = 0 := by
  decide

/-- Claim C8 (amended): deleting when at most one thread remains is
rejected with the state unchanged; and across every sequence of create,
select, delete, append and restore operations in which created ids are
fresh and restored snapshots carry pairwise-distinct thread ids, the
session always keeps at least one thread.  (A restore that smuggles in
duplicate ids breaks the guarantee, as the counterexample shows.) -/
theorem thread_invariant_amended :
    (∀ (s : ChatState) (tid : String), s.threads.length ≤ 1 →
       handleDeleteThread s tid = s) ∧
    (∀ (s : ChatState) (ops : List SessionOp),
       1 ≤ s.threads.length → (threadIds s).Nodup → opsOk s ops →
       1 ≤ (applyOps s ops).threads.length) := by
  refine ⟨?_, ?_⟩
  · intro s tid h
    unfold handleDeleteThread
    rw [if_pos h]
  · intro s ops h1 h2 hops
    exact (sessionInv_ops ops s ⟨h1, h2⟩ hops).1

/-- Claim C8 amended witness: deleting the only thread of a fresh
session is a no-op, and a concrete create-then-delete run keeps the
session nonempty. -/
theorem thread_invariant_witness :
    handleDeleteThread baseState "t1" = baseState ∧
    1 ≤ (applyOps baseState
          [SessionOp.create "t2" 5, SessionOp.delete "t1"]).threads.length :=
  ⟨thread_invariant_amended.1 baseState "t1" (by decide),
   thread_invariant_amended.2 baseState [SessionOp.create "t2" 5, SessionOp.delete "t1"]
     (by decide) (by decide)
     ⟨by show "t2" ∉ threadIds baseState; decide, trivial, trivial⟩⟩

/-- Once the guards pass, `handleSend` is the turn body followed by the
finally block. -/
theorem handleSend_eq_finalize (c : Character) (ids : Nat → String) (o : Oracles)
    (s : ChatState) (t : ChatThread)
    (hinput : jsTrim s.input ≠ "") (hproc : s.isProcessing = false)
    (hactive : activeThread s = some t) :
    handleSend c ids o s = finalizeSend (sendCore c ids o s t) := by
  unfold handleSend
  rw [if_neg (by simp [hinput, hproc]), hactive]

/-- Claim C7 (confirmed): whenever a submit actually runs (nonempty
trimmed input, no turn in flight, an active thread), the finally block
leaves the state in Text mode with the edit flag cleared, the processing
flag cleared and no pending indicator — whatever the mode was and
however the provider calls went. -/
theorem submit_resets_mode (c : Character) (ids : Nat → String) (o : Oracles)
    (s : ChatState) (t : ChatThread)
    (hinput : jsTrim s.input ≠ "") (hproc : s.isProcessing = false)
    (hactive : activeThread s = some t) :
    activeMode (handleSend c ids o s) = ActiveMode.text ∧
    (handleSend c ids o s).isEditMode = false ∧
    (handleSend c ids o s).isProcessing = false ∧
    (handleSend c ids o s).pendingIndicator = none := by
  rw [handleSend_eq_finalize c ids o s t hinput hproc hactive]
  exact ⟨rfl, rfl, rfl, rfl⟩

/-- Claim C7 witness: a concrete submit entered from image mode with the
edit flag set ends in Text mode with everything cleared. -/
theorem submit_resets_witness :
    activeMode (handleSend demoCharacter demoIds demoOracles c7State) = ActiveMode.text ∧
    (handleSend demoCharacter demoIds demoOracles c7State).isEditMode = false ∧
    (handleSend demoCharacter demoIds demoOracles c7State).isProcessing = false ∧
    (handleSend demoCharacter demoIds demoOracles c7State).pendingIndicator = none :=
  submit_resets_mode demoCharacter demoIds demoOracles c7State demoThread
    (by decide) rfl (by decide)

/-- In image mode, when generation succeeds and description fails, the
turn body appends the user turn and a bare image message. -/
theorem sendCore_image_describe_fail (c : Character) (ids : Nat → String) (o : Oracles)
    (s : ChatState) (t : ChatThread) (img err : String)
    (hmode : s.isImageMode = true) (hinput : jsTrim s.input ≠ "")
    (himg : o.image = Except.ok img) (hdesc : o.describe = Except.error err) :
    sendCore c ids o s t
      = updateThreadMessages
          { updateThreadMessages
              { s with input := "", isProcessing := true, errorMessage := none }
              t.id (fun prev => prev
                ++ [ChatMessage.text (ids 0) ChatRole.user (jsTrim s.input)])
            with pendingIndicator := some PendingKind.image }
          t.id (fun prev => prev ++ [ChatMessage.image (ids 1) img none]) := by
  have hcond : ((s.isEditMode && canEditImage c)
      && ((if s.isEditMode && canEditImage c then c.photoUrl else "") == "")) = false := by
    cases hedit : s.isEditMode && canEditImage c with
    | false => simp
    | true =>
        have hcan : canEditImage c = true := (Bool.and_eq_true _ _ ▸ hedit).2
        have h1 : (c.photoUrl != "") = true := (Bool.and_eq_true _ _ ▸ hcan).1
        have hne : c.photoUrl ≠ "" := by simpa using h1
        have h2 : (c.photoUrl == "") = false := beq_eq_false_iff_ne.mpr hne
        simp [h2]
  have hpost : imagePOST (jsTrim s.input) (s.isEditMode && canEditImage c)
      (if s.isEditMode && canEditImage c then c.photoUrl else "") o.image o.describe
      = ImageApiResponse.ok img none := by
    unfold imagePOST
    rw [if_neg hinput, if_neg (by rw [hcond]; exact Bool.false_ne_true), himg, hdesc]
  simp only [sendCore, hmode, hpost, jsOptOrUndefined, jsOptTruthy]
  simp

/-- Claim C6 (confirmed): in image mode, when the generate/edit call
succeeds and the describe call fails, the turn reports overall success —
no error message is surfaced, the processing indicator clears, and the
thread gains exactly the user turn plus one assistant image message with
no description and no synthetic description text message. -/
theorem image_describe_failure_swallowed (c : Character) (ids : Nat → String)
    (o : Oracles) (s : ChatState) (t : ChatThread) (img err : String)
    (hinput : jsTrim s.input ≠ "") (hproc : s.isProcessing = false)
    (hactive : activeThread s = some t) (hmode : s.isImageMode = true)
    (himg : o.image = Except.ok img) (hdesc : o.describe = Except.error err) :
    (handleSend c ids o s).errorMessage = none ∧
    (handleSend c ids o s).pendingIndicator = none ∧
    (handleSend c ids o s).isProcessing = false ∧
    messagesOf (handleSend c ids o s) t.id
      = t.messages ++ [ChatMessage.text (ids 0) ChatRole.user (jsTrim s.input),
                       ChatMessage.image (ids 1) img none] := by
  rw [handleSend_eq_finalize c ids o s t hinput hproc hactive,
    sendCore_image_describe_fail c ids o s t img err hmode hinput himg hdesc]
  have hfind : findThread s.threads t.id = some t := activeThread_find s t hactive
  have hfind1 : findThread
      ({ s with input := "", isProcessing := true, errorMessage := none } : ChatState).threads
      t.id = some t := hfind
  have hfind2 : findThread
      (updateThreadMessages
        { s with input := "", isProcessing := true, errorMessage := none }
        t.id (fun prev => prev
          ++ [ChatMessage.text (ids 0) ChatRole.user (jsTrim s.input)])).threads t.id
      = some { t with messages := t.messages
          ++ [ChatMessage.text (ids 0) ChatRole.user (jsTrim s.input)] } :=
    findThread_update_some _ t.id _ t hfind1
  refine ⟨rfl, rfl, rfl, ?_⟩
  have hmsg := messagesOf_update
    ({ updateThreadMessages
        { s with input := "", isProcessing := true, errorMessage := none }
        t.id (fun prev => prev
          ++ [ChatMessage.text (ids 0) ChatRole.user (jsTrim s.input)])
      with pendingIndicator := some PendingKind.image } : ChatState)
    t.id (fun prev => prev ++ [ChatMessage.image (ids 1) img none])
    { t with messages := t.messages
        ++ [ChatMessage.text (ids 0) ChatRole.user (jsTrim s.input)] }
    hfind2
  rw [show messagesOf (finalizeSend (updateThreadMessages
        { updateThreadMessages
            { s with input := "", isProcessing := true, errorMessage := none }
            t.id (fun prev => prev
              ++ [ChatMessage.text (ids 0) ChatRole.user (jsTrim s.input)])
          with pendingIndicator := some PendingKind.image }
        t.id (fun prev => prev ++ [ChatMessage.image (ids 1) img none]))) t.id
      = messagesOf (updateThreadMessages
        { updateThreadMessages
            { s with input := "", isProcessing := true, errorMessage := none }
            t.id (fun prev => prev
              ++ [ChatMessage.text (ids 0) ChatRole.user (jsTrim s.input)])
          with pendingIndicator := some PendingKind.image }
        t.id (fun prev => prev ++ [ChatMessage.image (ids 1) img none])) t.id from rfl]
  rw [hmsg]
  simp

/-- Claim C6 witness: the image-with-failed-description scenario on a
fresh thread — the thread gains the user turn and one bare image
message, with no error banner and the indicator cleared. -/
theorem image_describe_witness :
    (handleSend demoCharacter demoIds c6Oracles c6State).errorMessage = none ∧
    (handleSend demoCharacter demoIds c6Oracles c6State).pendingIndicator = none ∧
    (handleSend demoCharacter demoIds c6Oracles c6State).isProcessing = false ∧
    messagesOf (handleSend demoCharacter demoIds c6Oracles c6State) demoThread.id
      = demoThread.messages
        ++ [ChatMessage.text (demoIds 0) ChatRole.user (jsTrim c6State.input),
            ChatMessage.image (demoIds 1) "B64" none] :=
  image_describe_failure_swallowed demoCharacter demoIds c6Oracles c6State demoThread
    "B64" "boom" (by decide) rfl (by decide) rfl rfl rfl

/-- In Text+Voice mode, when the chat call succeeds but speech synthesis
fails, the route answers with a 500 error body carrying the provider
message, so the turn body lands in the catch block: the reply is
discarded and the synthetic error message is appended instead. -/
theorem sendCore_voice_failure (c : Character) (ids : Nat → String) (o : Oracles)
    (s : ChatState) (t : ChatThread) (r e : String)
    (hmode : s.isImageMode = false) (hvoice : s.isVoiceMode = true)
    (hchat : o.chat = Except.ok r) (htts : o.tts = Except.error e) :
    sendCore c ids o s t
      = appendErrorMessage
          { updateThreadMessages
              { s with input := "", isProcessing := true, errorMessage := none }
              t.id (fun prev => prev
                ++ [ChatMessage.text (ids 0) ChatRole.user (jsTrim s.input)])
            with pendingIndicator := some PendingKind.text }
          t.id (ids 1) (jsStringOr e "Unable to fetch response from Venice.") := by
  have hpost : chatPOST
      (buildRequestMessages (historyForCompletion t.messages) (jsTrim s.input) c.slug)
      s.isVoiceMode o.chat o.tts = ChatApiResponse.err 500 e := by
    unfold chatPOST
    rw [if_neg (by rw [buildRequestMessages_ne_nil]; exact Bool.false_ne_true),
      hchat, hvoice, htts]
    rfl
  simp only [sendCore, hmode, hpost]
  simp

/-- Claim C1 counterexample: Text+Voice mode, chat succeeds with "ok",
speech synthesis fails with "quota exceeded" — the reported error is the
provider message and no audio message is appended, but the thread ends
with the user message followed directly by the synthetic error message:
the assistant reply "ok" is NOT in the thread. -/
theorem c1_counterexample :
    (handleSend demoCharacter demoIds c1Oracles c1State).errorMessage
      = some "quota exceeded" ∧
    messagesOf (handleSend demoCharacter demoIds c1Oracles c1State) "t1"
      = [ChatMessage.text "0" ChatRole.user "hi",
         ChatMessage.text "1" ChatRole.assistant "Error: quota exceeded"] := by
  decide

/-- Claim C1 (amended): in Text+Voice mode, when the chat call succeeds
and speech synthesis fails with a provider error, the reported error is
that provider message and no Audio message is appended; but the
assistant reply is discarded with the failed turn — the thread ends with
the user message followed directly by the trailing synthetic assistant
text message `Error: <message>`, without the assistant reply. -/
theorem voice_failure_drops_reply (c : Character) (ids : Nat → String) (o : Oracles)
    (s : ChatState) (t : ChatThread) (r e : String)
    (hinput : jsTrim s.input ≠ "") (hproc : s.isProcessing = false)
    (hactive : activeThread s = some t)
    (hmode : s.isImageMode = false) (hvoice : s.isVoiceMode = true)
    (hchat : o.chat = Except.ok r) (htts : o.tts = Except.error e) (he : e ≠ "") :
    (handleSend c ids o s).errorMessage = some e ∧
    messagesOf (handleSend c ids o s) t.id
      = t.messages ++ [ChatMessage.text (ids 0) ChatRole.user (jsTrim s.input),
                       ChatMessage.text (ids 1) ChatRole.assistant ("Error: " ++ e)] := by
  have hjs : jsStringOr e "Unable to fetch response from Venice." = e := by
    unfold jsStringOr; rw [if_neg he]
  rw [handleSend_eq_finalize c ids o s t hinput hproc hactive,
    sendCore_voice_failure c ids o s t r e hmode hvoice hchat htts, hjs]
  have hfind : findThread s.threads t.id = some t := activeThread_find s t hactive
  have hfind1 : findThread
      ({ s with input := "", isProcessing := true, errorMessage := none } : ChatState).threads
      t.id = some t := hfind
  have hfind2 : findThread
      (updateThreadMessages
        { s with input := "", isProcessing := true, errorMessage := none }
        t.id (fun prev => prev
          ++ [ChatMessage.text (ids 0) ChatRole.user (jsTrim s.input)])).threads t.id
      = some { t with messages := t.messages
          ++ [ChatMessage.text (ids 0) ChatRole.user (jsTrim s.input)] } :=
    findThread_update_some _ t.id _ t hfind1
  have hmsg := messagesOf_update
    ({ updateThreadMessages
        { s with input := "", isProcessing := true, errorMessage := none }
        t.id (fun prev => prev
          ++ [ChatMessage.text (ids 0) ChatRole.user (jsTrim s.input)])
      with pendingIndicator := some PendingKind.text } : ChatState)
    t.id (fun prev => prev
      ++ [ChatMessage.text (ids 1) ChatRole.assistant ("Error: " ++ e)])
    { t with messages := t.messages
        ++ [ChatMessage.text (ids 0) ChatRole.user (jsTrim s.input)] }
    hfind2
  refine ⟨rfl, ?_⟩
  rw [show messagesOf (finalizeSend (appendErrorMessage
        { updateThreadMessages
            { s with input := "", isProcessing := true, errorMessage := none }
            t.id (fun prev => prev
              ++ [ChatMessage.text (ids 0) ChatRole.user (jsTrim s.input)])
          with pendingIndicator := some PendingKind.text }
        t.id (ids 1) e)) t.id
      = messagesOf (updateThreadMessages
        { updateThreadMessages
            { s with input := "", isProcessing := true, errorMessage := none }
            t.id (fun prev => prev
              ++ [ChatMessage.text (ids 0) ChatRole.user (jsTrim s.input)])
          with pendingIndicator := some PendingKind.text }
        t.id (fun prev => prev
          ++ [ChatMessage.text (ids 1) ChatRole.assistant ("Error: " ++ e)])) t.id
      from rfl]
  rw [hmsg]
  simp

/-- Claim C1 amended witness: the scenario instantiated on a fresh
thread with reply "ok" and provider error "quota exceeded". -/
theorem voice_failure_witness :
    (handleSend demoCharacter demoIds c1Oracles c1State).errorMessage
      = some "quota exceeded" ∧
    messagesOf (handleSend demoCharacter demoIds c1Oracles c1State) demoThread.id
      = demoThread.messages
        ++ [ChatMessage.text (demoIds 0) ChatRole.user (jsTrim c1State.input),
            ChatMessage.text (demoIds 1) ChatRole.assistant ("Error: " ++ "quota exceeded")] :=
  voice_failure_drops_reply demoCharacter demoIds c1Oracles c1State demoThread
    "ok" "quota exceeded" (by decide) rfl (by decide) rfl rfl rfl rfl (by decide)
